import Mathlib

/- Shallow embedding of the multichat real-time chat pipeline:
   src/server.js (connection hub and socket event handlers),
   src/messagequeue.js (durable queue adapter and the two consumers),
   src/models/Chat.js (Chat, Message and User mongoose schemas).
   JavaScript objects become structures with Option fields for members
   that may be undefined; timestamps are Nat milliseconds; effectful
   handlers return explicit effect traces; fallible calls return Except. -/

namespace MultiChat

/-- One entry of the attachments array of a message (models/Chat.js,
MessageSchema.attachments: a record with a type tag and a url). -/
structure Attachment where
  kind : String
  url : String
deriving DecidableEq, Repr

/-- The payload the send_message handler builds and places on the durable
queue (src/server.js lines 73-83).  The JavaScript object literal sets
sender, content, attachments, timestamp and chatId; id and recipients are
fields the downstream consumers read from the same object, so they appear
here as Option fields (undefined is none). -/
structure MessageEnvelope where
  id : Option String
  sender : Option String
  content : Option String
  attachments : List Attachment
  timestamp : Nat
  chatId : Option String
  recipients : Option (List String)
deriving DecidableEq, Repr

/-- The notification object built by processMessage
(src/messagequeue.js lines 105-110). -/
structure NotificationEnvelope where
  kind : String
  messageId : Option String
  chatId : Option String
  recipients : Option (List String)
deriving DecidableEq, Repr

/- ===== models/Chat.js: ChatSchema participant methods (C9) ===== -/

/-- ChatSchema.methods.addParticipant: if the participants array does not
include userId, push userId (src/models/Chat.js lines 63-68). -/
def addParticipant (participants : List String) (userId : String) : List String :=
  if participants.contains userId then participants
  else participants ++ [userId]

/-- ChatSchema.methods.removeParticipant: if the participants array includes
userId, replace it by the array filtered to entries whose string form
differs from userId (src/models/Chat.js lines 70-75). -/
def removeParticipant (participants : List String) (userId : String) : List String :=
  if participants.contains userId then participants.filter (fun pid => pid != userId)
  else participants

/- ===== models/Chat.js: MessageSchema validation (C10) ===== -/

/-- A Message document as submitted for validation: each required-checked
field is Option (none models an absent field); the attachments array may
itself be absent. -/
structure MessageDoc where
  chatId : Option String
  sender : Option String
  content : Option String
  attachments : Option (List Attachment)
deriving Repr

/-- The required predicate of MessageSchema.content:
return !this.attachments || this.attachments.length === 0
(src/models/Chat.js lines 93-96). -/
def contentRequired (m : MessageDoc) : Bool :=
  match m.attachments with
  | none => true
  | some l => l.isEmpty

/-- Mongoose validation of a Message document restricted to the required
constraints of MessageSchema: chatId and sender carry required: true, and
content is required exactly when contentRequired evaluates to true
(src/models/Chat.js lines 82-107). -/
def messageDocValid (m : MessageDoc) : Bool :=
  m.chatId.isSome && m.sender.isSome && (!(contentRequired m) || m.content.isSome)

/- ===== src/messagequeue.js: the MessageQueue class ===== -/

/-- Buffer.from(JSON.stringify(x)) for the two envelope shapes the adapter
serializes; the wire bytes are opaque to every claim, so the payload keeps
the envelope it encodes. -/
inductive QueuePayload
  | jsonOf (m : MessageEnvelope)
  | jsonOfNotification (n : NotificationEnvelope)
deriving DecidableEq, Repr

/-- The state of the MessageQueue instance: the amqp connection and channel
fields start as null and are set by a successful init
(src/messagequeue.js lines 6-8). -/
structure MessageQueue where
  connection : Option Unit
  channel : Option Unit
deriving DecidableEq, Repr

/-- One channel.sendToQueue call: queue name, serialized payload and the
persistent option (src/messagequeue.js lines 37-41 and 50-54). -/
structure PublishedItem where
  queue : String
  payload : QueuePayload
  persistent : Bool
deriving DecidableEq, Repr

/-- queueMessage: throw if this.channel is null, else sendToQueue the
JSON-serialized message on chat_messages with persistent: true
(src/messagequeue.js lines 31-42). -/
def queueMessage (mq : MessageQueue) (m : MessageEnvelope) :
    Except String PublishedItem :=
  match mq.channel with
  | none => Except.error "Message queue not initialized"
  | some _ => Except.ok ⟨"chat_messages", QueuePayload.jsonOf m, true⟩

/-- queueNotification: throw if this.channel is null, else sendToQueue the
JSON-serialized notification on notifications with persistent: true
(src/messagequeue.js lines 44-55). -/
def queueNotification (mq : MessageQueue) (n : NotificationEnvelope) :
    Except String PublishedItem :=
  match mq.channel with
  | none => Except.error "Message queue not initialized"
  | some _ => Except.ok ⟨"notifications", QueuePayload.jsonOfNotification n, true⟩

/-- One assertQueue call of the init success path: queue name and its
durable option. -/
structure QueueDecl where
  name : String
  durable : Bool
deriving DecidableEq, Repr

/-- The two assertQueue calls the init success path performs
(src/messagequeue.js lines 17-18): both queues durable. -/
def declaredQueues : List QueueDecl :=
  [⟨"chat_messages", true⟩, ⟨"notifications", true⟩]

/-- Outcome of one init attempt: the try block connects, creates the
channel, asserts the two durable queues and starts the consumers; the
catch block schedules a retry of the whole init after 5000 ms
(src/messagequeue.js lines 11-29). -/
inductive InitResult
  | ready (queues : List QueueDecl)
  | retryScheduled (delayMs : Nat)
deriving DecidableEq, Repr

/-- One attempt of the init routine, as a function of whether the connect
and declare steps succeed. -/
def mqInitAttempt (connectOk : Bool) : InitResult :=
  if connectOk then InitResult.ready declaredQueues
  else InitResult.retryScheduled 5000

/-- Whether the n-th init attempt is made, given which attempts succeed:
attempt 0 runs from the constructor, and attempt n+1 runs exactly when
attempt n was made and failed (the catch branch rescheduled). -/
def attemptMade (ok : Nat → Bool) : Nat → Bool
  | 0 => true
  | n + 1 => attemptMade ok n && !(ok n)

/- ===== src/messagequeue.js: the two consumers ===== -/

/-- An observable side effect of consumer-side processing: a console.log
call or a sendToQueue call. -/
inductive ConsumeEffect
  | logged (tag : String)
  | enqueued (item : PublishedItem)
deriving DecidableEq, Repr

/-- Result of the consume callback for one delivered item. -/
inductive AckResult
  | acked
  | nacked
deriving DecidableEq, Repr

/-- The notification object processMessage builds from a consumed message:
type message_delivered, with the messageId, chatId and recipients fields
read off the envelope (src/messagequeue.js lines 105-110). -/
def deriveNotification (m : MessageEnvelope) : NotificationEnvelope :=
  ⟨"message_delivered", m.id, m.chatId, m.recipients⟩

/-- processMessage: log the message, build the delivery notification and
queueNotification it; the only fallible step is queueNotification
(src/messagequeue.js lines 97-115).  Returns the effect trace of a
successful run. -/
def processMessage (mq : MessageQueue) (m : MessageEnvelope) :
    Except String (List ConsumeEffect) :=
  match queueNotification mq (deriveNotification m) with
  | Except.error e => Except.error e
  | Except.ok item =>
      Except.ok [ConsumeEffect.logged "Processing message",
                 ConsumeEffect.enqueued item]

/-- processNotification: log the notification and return; it never throws
and performs no enqueue (src/messagequeue.js lines 117-124). -/
def processNotification (_n : NotificationEnvelope) : Except String (List ConsumeEffect) :=
  Except.ok [ConsumeEffect.logged "Processing notification"]

/-- The consume callback shared by both queues (src/messagequeue.js
lines 59-95): try to parse the item and run the handler, then ack;
any throw (parse error or handler error) lands in the catch, which nacks.
The parsed argument is the outcome of JSON.parse on the delivered bytes. -/
def consumeWrapper {α : Type} (handler : α → Except String (List ConsumeEffect))
    (parsed : Except String α) : AckResult × List ConsumeEffect :=
  match parsed with
  | Except.error _ => (AckResult.nacked, [])
  | Except.ok m =>
      match handler m with
      | Except.error _ => (AckResult.nacked, [])
      | Except.ok effs => (AckResult.acked, effs)

/- ===== src/server.js: socket event handlers ===== -/

/-- The chat room object createNewChatRoom builds (src/server.js
lines 169-182): id is chat_ followed by the current millisecond clock. -/
structure ChatRoom where
  id : String
  name : Option String
  participants : List String
  isGroup : Bool
  createdBy : String
  createdAt : Nat
deriving DecidableEq, Repr

/-- An observable effect of a socket event handler: an enqueue on the
durable queue, an emit to a socket.io room, an emit to one socket, the
fire-and-forget delivery-status store, a socket joining a room, or the
error emit of a catch block. -/
inductive ServerEffect
  | enqueuedMsg (item : PublishedItem)
  | emitNewMessage (room : String) (m : MessageEnvelope)
  | storeDeliveryStatus (m : MessageEnvelope)
  | emitErrorToSender (errText : String)
  | joinRoom (socketId : String) (room : String)
  | emitChatCreated (socketId : String) (room : ChatRoom)
deriving DecidableEq, Repr

/-- The message object literal of the send_message handler (src/server.js
lines 77-83): sender, content, attachments (defaulted to the empty array),
timestamp and chatId are set; no id and no recipients field is ever
assigned, so both are none. -/
def buildMessage (userId : String) (chatId content : Option String)
    (attachments : Option (List Attachment)) (now : Nat) : MessageEnvelope :=
  { id := none
    sender := some userId
    content := content
    attachments := attachments.getD []
    timestamp := now
    chatId := chatId
    recipients := none }

/-- JavaScript template interpolation of a possibly undefined value, as in
the room key chat-colon-chatId. -/
def jsShow (s : Option String) : String :=
  match s with
  | some v => v
  | none => "undefined"

/-- The send_message handler (src/server.js lines 73-97): build the
message, await queueMessage, then emit new_message to the chat room and
call storeMessageDeliveryStatus without awaiting it; any throw lands in
the catch block, which emits an error event to the sender. -/
def handleSendMessage (mq : MessageQueue) (userId : String)
    (chatId content : Option String) (attachments : Option (List Attachment))
    (now : Nat) : List ServerEffect :=
  let message := buildMessage userId chatId content attachments now
  match queueMessage mq message with
  | Except.error _ => [ServerEffect.emitErrorToSender "Failed to send message"]
  | Except.ok item =>
      [ServerEffect.enqueuedMsg item,
       ServerEffect.emitNewMessage ("chat:" ++ jsShow chatId) message,
       ServerEffect.storeDeliveryStatus message]

/-- findUserSocket (src/server.js lines 189-197): look up the personal
room user-colon-userId in the adapter room index and return the first
socket id of the set, or null when the user has no connected socket.
The room index maps room names to socket id lists. -/
def findUserSocket (rooms : List (String × List String)) (userId : String) :
    Option String :=
  match rooms.lookup ("user:" ++ userId) with
  | some sockets => sockets.head?
  | none => none

/-- createNewChatRoom (src/server.js lines 169-182). -/
def createNewChatRoom (name : Option String) (participants : List String)
    (isGroup : Bool) (creatorId : String) (now : Nat) : ChatRoom :=
  { id := "chat_" ++ toString now
    name := name
    participants := participants
    isGroup := isGroup
    createdBy := creatorId
    createdAt := now }

/-- The create_chat handler (src/server.js lines 113-131): create the
room, then for each listed participant that findUserSocket resolves, join
that socket to the room and emit chat_created to it; participants without
a connected socket are skipped; finally emit chat_created to the creator
socket. -/
def handleCreateChat (rooms : List (String × List String))
    (creatorSocketId creatorId : String) (name : Option String)
    (participants : List String) (isGroup : Bool) (now : Nat) :
    List ServerEffect :=
  let chatRoom := createNewChatRoom name participants isGroup creatorId now
  (participants.flatMap (fun p =>
    match findUserSocket rooms p with
    | some s => [ServerEffect.joinRoom s ("chat:" ++ chatRoom.id),
                 ServerEffect.emitChatCreated s chatRoom]
    | none => [])) ++
  [ServerEffect.emitChatCreated creatorSocketId chatRoom]

/-- Whether socket s belongs to user u in the adapter room index (s is in
the personal room of u). -/
def socketBelongsTo (rooms : List (String × List String)) (u s : String) : Bool :=
  match rooms.lookup ("user:" ++ u) with
  | some sockets => sockets.contains s
  | none => false

/-- Whether an effect trace delivers a chat_created event to some socket
of user u. -/
def chatCreatedDeliveredTo (rooms : List (String × List String))
    (trace : List ServerEffect) (u : String) : Bool :=
  trace.any (fun e =>
    match e with
    | ServerEffect.emitChatCreated s _ => socketBelongsTo rooms u s
    | _ => false)

/- ===== Delivery/Read-Receipt Tracker (C5) ===== -/

/-- The per-recipient Delivery Record of a message: nullable delivered-at
and read-at timestamps (models/Chat.js keeps them in the deliveredTo and
readBy arrays of MessageSchema). -/
structure DeliveryRecord where
  deliveredAt : Option Nat
  readAt : Option Nat
deriving DecidableEq, Repr

/-- Modelled from the spec: the body of updateMessageReadStatus in
src/server.js (lines 164-167) is a console.log placeholder and the
repository contains no implementation of the Delivery/Read-Receipt
Tracker mutations, so MarkDelivered follows spec section 4.6: set the
delivered-at timestamp if unset, idempotent otherwise. -/
def markDelivered (r : DeliveryRecord) (t : Nat) : DeliveryRecord :=
  match r.deliveredAt with
  | some _ => r
  | none => { r with deliveredAt := some t }

/-- Modelled from the spec: the body of updateMessageReadStatus in
src/server.js (lines 164-167) is a console.log placeholder and the
repository contains no implementation of the Delivery/Read-Receipt
Tracker mutations, so MarkRead follows spec section 4.6: set the read-at
timestamp and backfill delivered-at to the read timestamp when it is
still unset, rather than rejecting the call. -/
def markRead (r : DeliveryRecord) (t : Nat) : DeliveryRecord :=
  { deliveredAt :=
      match r.deliveredAt with
      | some d => some d
      | none => some t
    readAt := some t }

end MultiChat

namespace MultiChat

/-- C9: addParticipant is a no-op when the user is already present and
appends the user exactly once otherwise; removeParticipant removes every
entry equal to the user preserving the order of the rest (it always equals
a filter), is a no-op when the user is absent, and removeParticipant after
addParticipant of a fresh user restores the original list. -/
theorem addRemoveParticipant_spec (ps : List String) (u : String) :
    (u ∈ ps → addParticipant ps u = ps) ∧
    (u ∉ ps → addParticipant ps u = ps ++ [u]) ∧
    (removeParticipant ps u = ps.filter (fun pid => pid != u)) ∧
    (u ∉ ps → removeParticipant ps u = ps) ∧
    (u ∉ ps → removeParticipant (addParticipant ps u) u = ps) := by
  have hfilter : u ∉ ps → ps.filter (fun pid => pid != u) = ps := by
    intro hu
    apply List.filter_eq_self.mpr
    intro a ha
    simp only [bne_iff_ne, ne_eq, decide_eq_true_eq]
    exact fun h => hu (h ▸ ha)
  refine ⟨?_, ?_, ?_, ?_, ?_⟩
  · intro hu
    simp [addParticipant, hu]
  · intro hu
    simp [addParticipant, hu]
  · by_cases hu : u ∈ ps
    · simp [removeParticipant, hu]
    · simp [removeParticipant, hu, hfilter hu]
  · intro hu
    simp [removeParticipant, hu]
  · intro hu
    have hadd : addParticipant ps u = ps ++ [u] := by
      simp [addParticipant, hu]
    have hmem : u ∈ ps ++ [u] := by simp
    rw [hadd]
    simp [removeParticipant, hmem, List.filter_append, hfilter hu]

/-- Witness for addRemoveParticipant_spec at a concrete list and user. -/
theorem addRemoveParticipant_spec_witness :
    addParticipant ["u1", "u2"] "u3" = ["u1", "u2", "u3"] ∧
    removeParticipant (addParticipant ["u1", "u2"] "u3") "u3" = ["u1", "u2"] := by
  have h := addRemoveParticipant_spec ["u1", "u2"] "u3"
  have hu : "u3" ∉ ["u1", "u2"] := by decide
  exact ⟨h.2.1 hu, h.2.2.2.2 hu⟩

/-- C10: a Message document is valid exactly when chatId and sender are
present and content is present whenever the attachments list is empty or
absent; in particular a message with at least one attachment may omit
content, and one with neither content nor attachments is invalid. -/
theorem messageDocValid_spec (m : MessageDoc) (c s : String) (a : Attachment)
    (l : List Attachment) :
    (messageDocValid m = true ↔
      (m.chatId.isSome = true ∧ m.sender.isSome = true ∧
        (contentRequired m = true → m.content.isSome = true))) ∧
    (contentRequired m = true ↔ (m.attachments = none ∨ m.attachments = some [])) ∧
    messageDocValid ⟨some c, some s, none, some (a :: l)⟩ = true ∧
    messageDocValid ⟨some c, some s, none, none⟩ = false ∧
    messageDocValid ⟨some c, some s, none, some []⟩ = false ∧
    (m.chatId = none → messageDocValid m = false) ∧
    (m.sender = none → messageDocValid m = false) := by
  refine ⟨?_, ?_, by simp [messageDocValid, contentRequired],
    by simp [messageDocValid, contentRequired],
    by simp [messageDocValid, contentRequired], ?_, ?_⟩
  · constructor
    · intro h
      simp only [messageDocValid, Bool.and_eq_true, Bool.or_eq_true, Bool.not_eq_true'] at h
      refine ⟨h.1.1, h.1.2, ?_⟩
      intro hreq
      rcases h.2 with h2 | h2
      · rw [hreq] at h2; cases h2
      · exact h2
    · rintro ⟨h1, h2, h3⟩
      simp only [messageDocValid, Bool.and_eq_true, Bool.or_eq_true, Bool.not_eq_true']
      refine ⟨⟨h1, h2⟩, ?_⟩
      by_cases hreq : contentRequired m = true
      · exact Or.inr (h3 hreq)
      · exact Or.inl (by simpa using hreq)
  · cases hm : m.attachments with
    | none => simp [contentRequired, hm]
    | some l' =>
      cases l' with
      | nil => simp [contentRequired, hm]
      | cons x xs => simp [contentRequired, hm]
  · intro h
    simp [messageDocValid, h]
  · intro h
    simp [messageDocValid, h]

/-- Witness for messageDocValid_spec at concrete documents. -/
theorem messageDocValid_spec_witness :
    messageDocValid ⟨some "r1", some "u1", none, some [⟨"image", "x"⟩]⟩ = true ∧
    messageDocValid ⟨some "r1", some "u1", none, none⟩ = false := by
  have h := messageDocValid_spec ⟨some "r1", some "u1", none, none⟩ "r1" "u1"
    ⟨"image", "x"⟩ []
  exact ⟨h.2.2.1, h.2.2.2.1⟩

/-- C2: the chat-messages consumer, given any envelope, performs no
persistence and creates no Delivery Records: its whole successful effect
trace is one console.log plus the enqueue of the derived notification
(whose recipients field is copied verbatim from the envelope), after which
the wrapper acks.  Evaluated here at a concrete envelope: the trace
contains no storage call of any kind. -/
theorem processMessage_effects_no_persist :
    processMessage ⟨some (), some ()⟩
        ⟨some "m1", some "u1", some "hi", [], 1000, some "r1", some ["u2"]⟩ =
      Except.ok [ConsumeEffect.logged "Processing message",
        ConsumeEffect.enqueued ⟨"notifications",
          QueuePayload.jsonOfNotification
            ⟨"message_delivered", some "m1", some "r1", some ["u2"]⟩, true⟩] ∧
    processMessage ⟨some (), some ()⟩
        ⟨none, some "u1", some "hi", [], 1000, some "r1", none⟩ =
      Except.ok [ConsumeEffect.logged "Processing message",
        ConsumeEffect.enqueued ⟨"notifications",
          QueuePayload.jsonOfNotification
            ⟨"message_delivered", none, some "r1", none⟩, true⟩] := by
  exact ⟨rfl, rfl⟩

/-- C3: for both consumers, a delivered item is acked exactly when the
parse and the handler both succeed, and nacked in every other case; the
notifications consumer never enqueues anything. -/
theorem consume_ack_iff_success (mq : MessageQueue)
    (pm : Except String MessageEnvelope) (pn : Except String NotificationEnvelope) :
    ((consumeWrapper (processMessage mq) pm).1 = AckResult.acked ↔
      (∃ m effs, pm = Except.ok m ∧ processMessage mq m = Except.ok effs)) ∧
    ((consumeWrapper (processMessage mq) pm).1 = AckResult.nacked ↔
      ¬ (∃ m effs, pm = Except.ok m ∧ processMessage mq m = Except.ok effs)) ∧
    ((consumeWrapper processNotification pn).1 = AckResult.acked ↔
      (∃ n, pn = Except.ok n)) ∧
    ((consumeWrapper processNotification pn).1 = AckResult.nacked ↔
      ¬ (∃ n, pn = Except.ok n)) ∧
    (∀ e, e ∈ (consumeWrapper processNotification pn).2 →
      ∀ item, e ≠ ConsumeEffect.enqueued item) := by
  have hmsg : (consumeWrapper (processMessage mq) pm).1 = AckResult.acked ↔
      (∃ m effs, pm = Except.ok m ∧ processMessage mq m = Except.ok effs) := by
    cases pm with
    | error e => simp [consumeWrapper]
    | ok m =>
      cases hp : processMessage mq m with
      | error e => simp [consumeWrapper, hp]
      | ok effs => simp [consumeWrapper, hp]
  have hnotif : (consumeWrapper processNotification pn).1 = AckResult.acked ↔
      (∃ n, pn = Except.ok n) := by
    cases pn with
    | error e => simp [consumeWrapper]
    | ok n => simp [consumeWrapper, processNotification]
  have hdichot : ∀ {α : Type} (h : α → Except String (List ConsumeEffect))
      (p : Except String α),
      ((consumeWrapper h p).1 = AckResult.nacked ↔
        ¬ (consumeWrapper h p).1 = AckResult.acked) := by
    intro α h p
    cases hr : (consumeWrapper h p).1 with
    | acked => simp
    | nacked => simp
  refine ⟨hmsg, ?_, hnotif, ?_, ?_⟩
  · rw [hdichot (processMessage mq) pm, hmsg]
  · rw [hdichot processNotification pn, hnotif]
  · intro e he item
    cases pn with
    | error er => simp [consumeWrapper] at he
    | ok n =>
      simp [consumeWrapper, processNotification] at he
      rw [he]
      intro hc
      cases hc

/-- Witness for consume_ack_iff_success: a parseable item on an
initialized queue is acked, a parse failure is nacked. -/
theorem consume_ack_iff_success_witness :
    (consumeWrapper (processMessage ⟨some (), some ()⟩)
      (Except.ok ⟨some "m1", some "u1", some "hi", [], 0, some "r1", some ["u2"]⟩)).1 =
      AckResult.acked ∧
    (consumeWrapper processNotification
      (Except.error "Unexpected token")).1 = AckResult.nacked := by
  have h := consume_ack_iff_success ⟨some (), some ()⟩
    (Except.ok ⟨some "m1", some "u1", some "hi", [], 0, some "r1", some ["u2"]⟩)
    (Except.error "Unexpected token")
  constructor
  · exact h.1.mpr ⟨_, _, rfl, rfl⟩
  · refine (h.2.2.2.1).mpr ?_
    rintro ⟨n, hn⟩
    cases hn

/-- C7: queueMessage and queueNotification fail with the not-initialized
error when the channel is absent, and otherwise publish the serialized
envelope on chat_messages respectively notifications with the persistent
flag set; both queue names are declared durable by the init path. -/
theorem enqueue_contract (mq : MessageQueue) (m : MessageEnvelope)
    (n : NotificationEnvelope) :
    (mq.channel = none →
      queueMessage mq m = Except.error "Message queue not initialized" ∧
      queueNotification mq n = Except.error "Message queue not initialized") ∧
    (mq.channel.isSome = true →
      queueMessage mq m = Except.ok ⟨"chat_messages", QueuePayload.jsonOf m, true⟩ ∧
      queueNotification mq n =
        Except.ok ⟨"notifications", QueuePayload.jsonOfNotification n, true⟩) ∧
    (QueueDecl.mk "chat_messages" true ∈ declaredQueues ∧
      QueueDecl.mk "notifications" true ∈ declaredQueues ∧
      mqInitAttempt true = InitResult.ready declaredQueues) := by
  refine ⟨?_, ?_, by decide, by decide, by decide⟩
  · intro h
    simp [queueMessage, queueNotification, h]
  · intro h
    rw [Option.isSome_iff_exists] at h
    obtain ⟨c, hc⟩ := h
    simp [queueMessage, queueNotification, hc]

/-- Witness for enqueue_contract on an uninitialized and an initialized
queue state. -/
theorem enqueue_contract_witness :
    queueMessage ⟨none, none⟩ ⟨none, some "u1", some "hi", [], 0, some "r1", none⟩ =
      Except.error "Message queue not initialized" ∧
    queueMessage ⟨some (), some ()⟩
        ⟨none, some "u1", some "hi", [], 0, some "r1", none⟩ =
      Except.ok ⟨"chat_messages",
        QueuePayload.jsonOf ⟨none, some "u1", some "hi", [], 0, some "r1", none⟩,
        true⟩ := by
  constructor
  · exact ((enqueue_contract ⟨none, none⟩
      ⟨none, some "u1", some "hi", [], 0, some "r1", none⟩
      ⟨"message_delivered", none, none, none⟩).1 rfl).1
  · exact ((enqueue_contract ⟨some (), some ()⟩
      ⟨none, some "u1", some "hi", [], 0, some "r1", none⟩
      ⟨"message_delivered", none, none, none⟩).2.1 rfl).1

/-- C8: the first init attempt is always made; every failed attempt
schedules a retry after exactly 5000 ms and the next attempt is then made;
a successful attempt declares the two durable queues; and under perpetual
failure every attempt is eventually made (no maximum retry count). -/
theorem init_retries_forever (ok : Nat → Bool) :
    attemptMade ok 0 = true ∧
    (∀ k, attemptMade ok k = true → ok k = false →
      mqInitAttempt (ok k) = InitResult.retryScheduled 5000 ∧
      attemptMade ok (k + 1) = true) ∧
    (∀ k, ok k = true → mqInitAttempt (ok k) = InitResult.ready declaredQueues) ∧
    ((∀ k, ok k = false) → ∀ k, attemptMade ok k = true) := by
  refine ⟨rfl, ?_, ?_, ?_⟩
  · intro k hmade hfail
    constructor
    · rw [hfail]; rfl
    · simp [attemptMade, hmade, hfail]
  · intro k hok
    rw [hok]; rfl
  · intro hall k
    induction k with
    | zero => rfl
    | succ j ih => simp [attemptMade, ih, hall j]

/-- Witness for init_retries_forever: with every attempt failing, the
third attempt is still made and each failure schedules a 5000 ms retry. -/
theorem init_retries_forever_witness :
    mqInitAttempt ((fun _ => false) 0) = InitResult.retryScheduled 5000 ∧
    attemptMade (fun _ => false) 3 = true := by
  have h := init_retries_forever (fun _ => false)
  exact ⟨(h.2.1 0 h.1 rfl).1, h.2.2.2 (fun _ => rfl) 3⟩

/-- C1: the envelope the send_message handler constructs, enqueues and
broadcasts carries no message identifier at all: its id field (and its
recipients field) is none for every input, even though the downstream
consumers read both; sender, content, attachments, timestamp and chatId
are the only fields the handler sets. -/
theorem sendMessage_envelope_has_no_id (userId : String)
    (chatId content : Option String) (attachments : Option (List Attachment))
    (now : Nat) :
    (buildMessage userId chatId content attachments now).id = none ∧
    (buildMessage userId chatId content attachments now).recipients = none ∧
    (buildMessage userId chatId content attachments now).sender = some userId ∧
    (buildMessage userId chatId content attachments now).content = content ∧
    (buildMessage userId chatId content attachments now).attachments =
      attachments.getD [] ∧
    (buildMessage userId chatId content attachments now).timestamp = now ∧
    (buildMessage userId chatId content attachments now).chatId = chatId :=
  ⟨rfl, rfl, rfl, rfl, rfl, rfl, rfl⟩

/-- C4: when the durable enqueue fails, the handler trace is exactly one
error event to the sender with no new_message broadcast; when it
succeeds, the trace is the enqueue, then immediately the new_message
broadcast to the chat room, then the un-awaited delivery-status store, so
the broadcast is issued before the only persistence-related call and the
handler never waits on the consumer-side pipeline. -/
theorem sendMessage_error_or_broadcast (mq : MessageQueue) (userId : String)
    (chatId content : Option String) (attachments : Option (List Attachment))
    (now : Nat) :
    (mq.channel = none →
      handleSendMessage mq userId chatId content attachments now =
        [ServerEffect.emitErrorToSender "Failed to send message"] ∧
      ∀ room m, ServerEffect.emitNewMessage room m ∉
        handleSendMessage mq userId chatId content attachments now) ∧
    (mq.channel.isSome = true →
      handleSendMessage mq userId chatId content attachments now =
        [ServerEffect.enqueuedMsg ⟨"chat_messages",
            QueuePayload.jsonOf (buildMessage userId chatId content attachments now),
            true⟩,
         ServerEffect.emitNewMessage ("chat:" ++ jsShow chatId)
           (buildMessage userId chatId content attachments now),
         ServerEffect.storeDeliveryStatus
           (buildMessage userId chatId content attachments now)]) := by
  constructor
  · intro h
    constructor
    · simp [handleSendMessage, queueMessage, h]
    · intro room m
      simp [handleSendMessage, queueMessage, h]
  · intro h
    rw [Option.isSome_iff_exists] at h
    obtain ⟨c, hc⟩ := h
    simp [handleSendMessage, queueMessage, hc]

/-- Witness for sendMessage_error_or_broadcast: the uninitialized queue
yields the error event, the initialized one yields the broadcast trace. -/
theorem sendMessage_error_or_broadcast_witness :
    handleSendMessage ⟨none, none⟩ "user123" (some "room1") (some "hi") none 0 =
      [ServerEffect.emitErrorToSender "Failed to send message"] ∧
    handleSendMessage ⟨some (), some ()⟩ "user123" (some "room1") (some "hi")
        none 0 =
      [ServerEffect.enqueuedMsg ⟨"chat_messages",
          QueuePayload.jsonOf (buildMessage "user123" (some "room1") (some "hi") none 0),
          true⟩,
       ServerEffect.emitNewMessage "chat:room1"
         (buildMessage "user123" (some "room1") (some "hi") none 0),
       ServerEffect.storeDeliveryStatus
         (buildMessage "user123" (some "room1") (some "hi") none 0)] := by
  constructor
  · exact ((sendMessage_error_or_broadcast ⟨none, none⟩ "user123" (some "room1")
      (some "hi") none 0).1 rfl).1
  · exact (sendMessage_error_or_broadcast ⟨some (), some ()⟩ "user123"
      (some "room1") (some "hi") none 0).2 rfl

/-- C5: MarkRead invoked while delivered-at is still unset (so before any
MarkDelivered for the pair) sets both timestamps, backfilling delivered-at
to the read timestamp so the two are equal; the call is total, never
rejected. -/
theorem markRead_backfills_delivered (r : DeliveryRecord) (t : Nat)
    (h : r.deliveredAt = none) :
    (markRead r t).readAt = some t ∧
    (markRead r t).deliveredAt = some t ∧
    (markRead r t).deliveredAt = (markRead r t).readAt := by
  refine ⟨rfl, ?_, ?_⟩ <;> simp [markRead, h]

/-- Witness for markRead_backfills_delivered on a fresh Delivery Record. -/
theorem markRead_backfills_delivered_witness :
    (markRead ⟨none, none⟩ 7).readAt = some 7 ∧
    (markRead ⟨none, none⟩ 7).deliveredAt = some 7 := by
  have h := markRead_backfills_delivered ⟨none, none⟩ 7 rfl
  exact ⟨h.1, h.2.1⟩

/-- C6 as stated is false: participant u2 is listed in the create_chat
payload of a successful create_chat, but has no connected socket, and the
handler trace delivers chat_created to no socket of u2. -/
theorem createChat_offline_participant_missed :
    ("u2" ∈ ["u1", "u2"]) ∧
    chatCreatedDeliveredTo [("user:u1", ["s1"])]
      (handleCreateChat [("user:u1", ["s1"])] "s0" "u0" (some "g")
        ["u1", "u2"] true 0) "u2" = false :=
  ⟨by decide, by decide⟩

/-- C6 amended: on a successful create_chat, chat_created carrying the
created room is emitted to the creator socket and to the resolved socket
of every listed participant that has a connected socket (participants
without one are skipped). -/
theorem createChat_delivers_to_connected (rooms : List (String × List String))
    (creatorSocketId creatorId : String) (name : Option String)
    (participants : List String) (isGroup : Bool) (now : Nat) :
    (ServerEffect.emitChatCreated creatorSocketId
        (createNewChatRoom name participants isGroup creatorId now) ∈
      handleCreateChat rooms creatorSocketId creatorId name participants
        isGroup now) ∧
    (∀ p s, p ∈ participants → findUserSocket rooms p = some s →
      ServerEffect.emitChatCreated s
          (createNewChatRoom name participants isGroup creatorId now) ∈
        handleCreateChat rooms creatorSocketId creatorId name participants
          isGroup now) := by
  constructor
  · simp [handleCreateChat]
  · intro p s hp hs
    unfold handleCreateChat
    refine List.mem_append.mpr (Or.inl ?_)
    refine List.mem_flatMap.mpr ⟨p, hp, ?_⟩
    simp [hs]

/-- Witness for createChat_delivers_to_connected: a connected participant
and the creator both receive chat_created. -/
theorem createChat_delivers_to_connected_witness :
    ServerEffect.emitChatCreated "s1"
        (createNewChatRoom (some "g") ["u1"] true "u0" 0) ∈
      handleCreateChat [("user:u1", ["s1"])] "s0" "u0" (some "g") ["u1"] true 0 ∧
    ServerEffect.emitChatCreated "s0"
        (createNewChatRoom (some "g") ["u1"] true "u0" 0) ∈
      handleCreateChat [("user:u1", ["s1"])] "s0" "u0" (some "g") ["u1"] true 0 := by
  have h := createChat_delivers_to_connected [("user:u1", ["s1"])] "s0" "u0"
    (some "g") ["u1"] true 0
  exact ⟨h.2 "u1" "s1" (by decide) rfl, h.1⟩

end MultiChat
